import Mathlib

/-!
Verification development for the flash-loan arbitrage bot.

Shallow embedding of three source modules:
* the profit estimator (class ProfitEstimator: estimateProfit,
  validateOpportunity, calculateBaseProfit, calculateCosts,
  calculateSlippageImpact, calculateConfidence, getRecommendation);
* the market-data coordinator (class MCPCoordinator: the per-client health,
  circuit-breaker and load-balancing-weight state touched by
  updateSuccessMetrics, updateFailureMetrics, checkCircuitBreakers,
  checkClientHealth, getClientsForCapability, attemptFailover);
* the arbitrage engine (rankOpportunities and the queue-push step of
  scanForOpportunities).

JavaScript numbers are modelled as rationals, missing or null object fields
as Option, and JavaScript truthiness of numeric and string fields explicitly.
-/

namespace FBot

/-- An arbitrage opportunity as passed to ProfitEstimator.estimateProfit.
Every field of the JavaScript object may be absent (undefined/null), hence
Option. -/
structure Opportunity where
  priceDelta : Option ℚ
  volume : Option ℚ
  gasPrice : Option ℚ
  flashLoanProvider : Option String
  dexA : Option String
  dexB : Option String
  liquidityA : Option ℚ
  liquidityB : Option ℚ
  ethPriceUsd : Option ℚ
  oppId : Option String
  chain : Option String
deriving DecidableEq

/-- The configuration record built in the ProfitEstimator constructor
(defaults minProfitThreshold 0.0025, maxGasPriceGwei 50, maxSlippage 0.001,
reserveBuffer 0.1). -/
structure EstimatorConfig where
  minProfitThreshold : ℚ
  maxGasPriceGwei : ℚ
  maxSlippage : ℚ
  reserveBuffer : ℚ
deriving DecidableEq

/-- Default ProfitEstimator configuration. -/
def defaultConfig : EstimatorConfig :=
  { minProfitThreshold := 25 / 10000
    maxGasPriceGwei := 50
    maxSlippage := 1 / 1000
    reserveBuffer := 1 / 10 }

/-- Gas-unit hints from this.gasEstimates: flashLoanRequest + dexSwap +
flashLoanRepay + totalBuffer. -/
def totalGasUnits : ℕ := 150000 + 200000 + 100000 + 50000

/-- The this.flashLoanFees table (basis points); absent keys are undefined. -/
def flashLoanFees (p : String) : Option ℚ :=
  if p = "venus" then some 9
  else if p = "aave" then some 9
  else if p = "compound" then some 0
  else none

/-- The this.dexFees table (basis points); absent keys are undefined. -/
def dexFees (d : String) : Option ℚ :=
  if d = "pancakeswap" then some 25
  else if d = "biswap" then some 10
  else if d = "quickswap" then some 30
  else if d = "sushiswap" then some 30
  else if d = "uniswap" then some 30
  else if d = "uniswap-v3" then some 5
  else if d = "curve" then some 4
  else none

/-- JavaScript truthiness of a possibly-undefined numeric value:
undefined and 0 are falsy. -/
def truthyQ (v : Option ℚ) : Bool := v.getD 0 != 0

/-- JavaScript expression v || d on a possibly-undefined number:
the value when truthy, the default otherwise. -/
def jsOrQ (v : Option ℚ) (d : ℚ) : ℚ := if truthyQ v then v.getD 0 else d

/-- JavaScript expression v || d on a possibly-undefined string:
undefined and the empty string are falsy. -/
def jsOrStr (v : Option String) (d : String) : String :=
  match v with
  | some s => if s = "" then d else s
  | none => d

/-- ProfitEstimator.validateOpportunity: the six required fields must be
present, the three numeric fields strictly positive, and the provider and
both DEX fee lookups truthy (note: a fee of 0 is falsy in JavaScript). -/
def validateOpportunity (o : Opportunity) : Bool :=
  o.priceDelta.isSome && o.volume.isSome && o.gasPrice.isSome &&
  o.flashLoanProvider.isSome && o.dexA.isSome && o.dexB.isSome &&
  decide (0 < o.priceDelta.getD 0) && decide (0 < o.volume.getD 0) &&
  decide (0 < o.gasPrice.getD 0) &&
  truthyQ (flashLoanFees (o.flashLoanProvider.getD "")) &&
  truthyQ (dexFees (o.dexA.getD "")) && truthyQ (dexFees (o.dexB.getD ""))

/-- ethers.parseUnits(x.toString(), gwei): the wei value when x has at most
nine fractional decimal digits, an exception (none) otherwise. -/
def parseUnitsGwei (q : ℚ) : Option ℤ :=
  if (q * 1000000000).den = 1 then some (q * 1000000000).num else none

/-- ProfitEstimator.calculateBaseProfit: price difference times volume. -/
def calculateBaseProfit (priceDelta volume : ℚ) : ℚ := priceDelta * volume

/-- The costs.breakdown object of ProfitEstimator.calculateCosts. -/
structure CostBreakdown where
  gasCost : ℚ
  flashLoanFee : ℚ
  dexFeeA : ℚ
  dexFeeB : ℚ
  reserveBuffer : ℚ
deriving DecidableEq

/-- ProfitEstimator.calculateCosts on an opportunity whose provider and DEX
fees have already been looked up; none models the exception thrown by
ethers.parseUnits on a gas price with too many decimals. -/
def calculateCosts (cfg : EstimatorConfig) (volume gasPrice provFeeBps feeABps feeBBps : ℚ)
    (ethPriceUsd : Option ℚ) : Option (CostBreakdown × ℚ) :=
  match parseUnitsGwei gasPrice with
  | none => none
  | some gweiWei =>
    let gasCostWei : ℤ := (totalGasUnits : ℤ) * gweiWei
    let gasCostEth : ℚ := (gasCostWei : ℚ) / 1000000000000000000
    let ethPrice : ℚ := jsOrQ ethPriceUsd 2000
    let gasCostUsd : ℚ := gasCostEth * ethPrice
    let flashLoanFee : ℚ := volume * provFeeBps / 10000
    let dexFeeA : ℚ := volume * feeABps / 10000
    let dexFeeB : ℚ := volume * feeBBps / 10000
    let reserve : ℚ := volume * cfg.reserveBuffer
    some (⟨gasCostUsd, flashLoanFee, dexFeeA, dexFeeB, reserve⟩,
      gasCostUsd + flashLoanFee + dexFeeA + dexFeeB + reserve)

/-- ProfitEstimator.calculateSlippageImpact: liquidity defaults to 1000000
when the field is absent or 0 (JavaScript ||), 50 percent slippage factor on
each side, capped at config.maxSlippage, scaled by the volume. -/
def calculateSlippageImpact (cfg : EstimatorConfig) (volume : ℚ)
    (liquidityA liquidityB : Option ℚ) : ℚ :=
  let lA := jsOrQ liquidityA 1000000
  let lB := jsOrQ liquidityB 1000000
  let slippageA := volume / lA * (1 / 2)
  let slippageB := volume / lB * (1 / 2)
  (min (slippageA + slippageB) cfg.maxSlippage) * volume

/-- ProfitEstimator.calculateConfidence: baseline 1.0 with sequential
multiplicative penalties and a floor of 0.1. -/
def calculateConfidence (cfg : EstimatorConfig) (priceDelta volume gasPrice : ℚ)
    (liquidityA liquidityB : Option ℚ) : ℚ :=
  let c1 : ℚ := 1
  let c2 := if cfg.maxGasPriceGwei < gasPrice then c1 * (8 / 10) else c1
  let minLiquidity := min (jsOrQ liquidityA 1000000) (jsOrQ liquidityB 1000000)
  let c3 := if minLiquidity < volume * 10 then c2 * (6 / 10) else c2
  let margin := priceDelta / volume
  let c4 := if margin < 5 / 1000 then c3 * (7 / 10) else c3
  max c4 (1 / 10)

/-- ProfitEstimator.getRecommendation. -/
def getRecommendation (cfg : EstimatorConfig) (profitPercent : ℚ) : String :=
  if 1 / 100 ≤ profitPercent then "STRONG_BUY"
  else if 5 / 1000 ≤ profitPercent then "BUY"
  else if cfg.minProfitThreshold ≤ profitPercent then "WEAK_BUY"
  else "PASS"

/-- The object returned by ProfitEstimator.estimateProfit. Fields that a
given return path leaves undefined are none; metaTimestamp is the
Date.now() value recorded under metadata.timestamp. -/
structure EstimateResult where
  profitable : Bool
  reason : Option String
  errMsg : Option String
  baseProfit : Option ℚ
  costs : Option CostBreakdown
  totalCosts : Option ℚ
  netProfit : Option ℚ
  profitPercent : Option ℚ
  slippageImpact : Option ℚ
  threshold : Option ℚ
  confidence : Option ℚ
  recommendation : Option String
  metaTimestamp : Option ℕ
  metaOpportunity : Option String
  metaChain : Option String
deriving DecidableEq

/-- The early return for invalid opportunity data. -/
def invalidResult : EstimateResult :=
  { profitable := false
    reason := some "Invalid opportunity data"
    errMsg := none, baseProfit := none, costs := none, totalCosts := none
    netProfit := none, profitPercent := none, slippageImpact := none
    threshold := none, confidence := none, recommendation := none
    metaTimestamp := none, metaOpportunity := none, metaChain := none }

/-- The catch branch of estimateProfit. -/
def calcErrorResult (msg : String) : EstimateResult :=
  { invalidResult with reason := some "Calculation error", errMsg := some msg }

/-- ProfitEstimator.estimateProfit. The now argument is the ambient
Date.now() clock read when building metadata. The catch branch is reached
exactly when ethers.parseUnits throws inside calculateCosts. -/
def estimateProfit (cfg : EstimatorConfig) (o : Opportunity) (now : ℕ) : EstimateResult :=
  if validateOpportunity o then
    match o.priceDelta, o.volume, o.gasPrice, o.flashLoanProvider, o.dexA, o.dexB with
    | some priceDelta, some volume, some gasPrice, some provider, some dA, some dB =>
      let baseProfit := calculateBaseProfit priceDelta volume
      match calculateCosts cfg volume gasPrice ((flashLoanFees provider).getD 0)
          ((dexFees dA).getD 0) ((dexFees dB).getD 0) o.ethPriceUsd with
      | none => calcErrorResult "invalid decimal value"
      | some (breakdown, totalCosts) =>
        let netProfit := baseProfit - totalCosts
        let slippageImpact := calculateSlippageImpact cfg volume o.liquidityA o.liquidityB
        let adjustedNetProfit := netProfit - slippageImpact
        let adjustedProfitPercent := adjustedNetProfit / volume
        { profitable := decide (cfg.minProfitThreshold ≤ adjustedProfitPercent)
          reason := none
          errMsg := none
          baseProfit := some baseProfit
          costs := some breakdown
          totalCosts := some totalCosts
          netProfit := some adjustedNetProfit
          profitPercent := some adjustedProfitPercent
          slippageImpact := some slippageImpact
          threshold := some cfg.minProfitThreshold
          confidence := some (calculateConfidence cfg priceDelta volume gasPrice
            o.liquidityA o.liquidityB)
          recommendation := some (getRecommendation cfg adjustedProfitPercent)
          metaTimestamp := some now
          metaOpportunity := some (jsOrStr o.oppId "unknown")
          metaChain := some (jsOrStr o.chain "unknown") }
    | _, _, _, _, _, _ => invalidResult
  else invalidResult

/-! Market-data coordinator (mcp-coordinator.js). We embed the per-client
state that the routing, circuit-breaker, health and load-balancing code
mutates, and the five kinds of events that touch it, as a step function on
that state. A trace is a time-stamped event list; validity of a trace
expresses exactly the guards the source enforces: timestamps are read from a
monotone clock, and a request is dispatched to a client (either by
getClientsForCapability for primary selection or by attemptFailover) only
when the client is healthy and its circuit breaker is not open. -/

/-- Coordinator configuration (defaults circuitBreakerThreshold 5,
circuitBreakerTimeout 60000 ms). -/
structure CoordConfig where
  circuitBreakerThreshold : ℕ
  circuitBreakerTimeout : ℕ
deriving DecidableEq

/-- Default coordinator configuration. -/
def defaultCoordConfig : CoordConfig := ⟨5, 60000⟩

/-- Per-client mutable state: clientInfo.isHealthy, the healthStatus
consecutiveErrors counter, the circuitBreakers entry (isOpen, failureCount,
nextRetryTime) and the loadBalancingStats weight. nextRetryTime is 0 while
the source field is still null. -/
structure ClientState where
  isHealthy : Bool
  consecutiveErrors : ℕ
  breakerOpen : Bool
  failureCount : ℕ
  nextRetryTime : ℕ
  weight : ℚ
deriving DecidableEq

/-- State written by initializeClientTracking / initializeClient. -/
def newClientState : ClientState :=
  { isHealthy := true, consecutiveErrors := 0, breakerOpen := false
    failureCount := 0, nextRetryTime := 0, weight := 1 }

/-- Events that touch one client: a dispatched request that succeeds
(updateSuccessMetrics), a dispatched request that fails
(updateFailureMetrics), a periodic breaker scan (checkCircuitBreakers) and a
health probe outcome (checkClientHealth). -/
inductive CoordEvent where
  | deliverSuccess
  | deliverFailure
  | healthTick
  | probeSuccess
  | probeFailure
deriving DecidableEq

/-- An event together with the Date.now() reading at which it runs. -/
structure TimedEvent where
  time : ℕ
  ev : CoordEvent
deriving DecidableEq

/-- One step of the coordinator on one client.
deliverSuccess is updateSuccessMetrics: the breaker is closed and its
counter cleared only when it was open, consecutiveErrors is zeroed, the
client marked healthy, and the weight raised by 10 percent capped at 2.0.
deliverFailure is updateFailureMetrics: both counters are incremented, the
breaker opens with nextRetryTime now + cooldown when the failure count
reaches the threshold, three consecutive errors mark the client unhealthy,
and the weight is cut by 20 percent floored at 0.1.
healthTick is the checkCircuitBreakers loop body: an open breaker whose
nextRetryTime has been reached is closed and its counter cleared.
probeSuccess and probeFailure are the two outcomes of checkClientHealth,
which only rewrite the health flag. -/
def stepClient (cfg : CoordConfig) (s : ClientState) (e : TimedEvent) : ClientState :=
  match e.ev with
  | .deliverSuccess =>
    let s1 := if s.breakerOpen then { s with breakerOpen := false, failureCount := 0 } else s
    { s1 with isHealthy := true, consecutiveErrors := 0
              weight := min (s1.weight * (11 / 10)) 2 }
  | .deliverFailure =>
    let ce := s.consecutiveErrors + 1
    let fc := s.failureCount + 1
    let s1 := { s with consecutiveErrors := ce, failureCount := fc }
    let s2 := if cfg.circuitBreakerThreshold ≤ fc then
        { s1 with breakerOpen := true, nextRetryTime := e.time + cfg.circuitBreakerTimeout }
      else s1
    let s3 := if 3 ≤ ce then { s2 with isHealthy := false } else s2
    { s3 with weight := max (s3.weight * (8 / 10)) (1 / 10) }
  | .healthTick =>
    if s.breakerOpen && decide (s.nextRetryTime ≤ e.time) then
      { s with breakerOpen := false, failureCount := 0 }
    else s
  | .probeSuccess => { s with isHealthy := true }
  | .probeFailure => { s with isHealthy := false }

/-- The filter applied by getClientsForCapability and again by
attemptFailover before any dispatch: the client must be healthy and its
breaker closed. -/
def selectable (s : ClientState) : Bool := s.isHealthy && !s.breakerOpen

/-- Whether an event is a request dispatched to the client. -/
def isDelivery : CoordEvent → Bool
  | .deliverSuccess => true
  | .deliverFailure => true
  | _ => false

/-- A trace is valid from state s and clock t0 when timestamps never go
backwards and every dispatched request passes the selectable filter at the
state in which it runs. -/
def validTrace (cfg : CoordConfig) : ClientState → ℕ → List TimedEvent → Bool
  | _, _, [] => true
  | s, t0, e :: es =>
    decide (t0 ≤ e.time) && (!isDelivery e.ev || selectable s) &&
    validTrace cfg (stepClient cfg s e) e.time es

/-- Run a list of events through the step function. -/
def runClient (cfg : CoordConfig) (s : ClientState) (es : List TimedEvent) : ClientState :=
  es.foldl (stepClient cfg) s

/-! Arbitrage engine (arbitrage-engine.js): rankOpportunities and the
queue-push loop of scanForOpportunities. Math.log is kept abstract as a
parameter jsLog, since only the comparator structure matters here. -/

/-- The fields of an engine opportunity object that rankOpportunities and
the queue push read. expectedProfit is the net profit figure attached by
filterOpportunities. -/
structure EngineOpp where
  profitability : ℚ
  confidence : ℚ
  liquidity : ℚ
  expectedProfit : ℚ
deriving DecidableEq

/-- The ranking score from rankOpportunities:
profitability times confidence times Math.log(liquidity), divided by 1000. -/
def oppScore (jsLog : ℚ → ℚ) (o : EngineOpp) : ℚ :=
  o.profitability * o.confidence * jsLog o.liquidity / 1000

/-- rankOpportunities: sort by score descending (the comparator returns
scoreB minus scoreA), with a stable sort as in the V8 runtime. -/
def rankOpportunities (jsLog : ℚ → ℚ) (opps : List EngineOpp) : List EngineOpp :=
  opps.mergeSort (fun a b => decide (oppScore jsLog b ≤ oppScore jsLog a))

/-- The queue update of one scanForOpportunities tick: every ranked
opportunity is pushed onto this.executionQueue in order. -/
def scanTickQueue (jsLog : ℚ → ℚ) (queue : List EngineOpp) (valid : List EngineOpp) :
    List EngineOpp :=
  queue ++ rankOpportunities jsLog valid

/-! Concrete inputs and formal statements of the claims that turn out to
fail on the code, used below as counterexamples. -/

/-- Boundary opportunity: venus provider (9 bps), two curve venues (4 bps
each), gas 1 gwei (1 USD at the default 2000 USD native price), volume
10000, depths 5000000 so the slippage cap 0.001 binds. The slippage-adjusted
net profit is exactly 25, that is 25 bps of the volume. -/
def opp25 : Opportunity :=
  { priceDelta := some (1053 / 10000), volume := some 10000, gasPrice := some 1
    flashLoanProvider := some "venus", dexA := some "curve", dexB := some "curve"
    liquidityA := some 5000000, liquidityB := some 5000000
    ethPriceUsd := none, oppId := none, chain := none }

/-- Same opportunity with the price delta lowered so the adjusted net margin
is exactly 24.99 bps. -/
def opp2499 : Opportunity := { opp25 with priceDelta := some (105299 / 1000000) }

/-- An opportunity object with every field absent. -/
def oppEmpty : Opportunity :=
  ⟨none, none, none, none, none, none, none, none, none, none, none⟩

/-- Claim C2 as stated: two calls of estimateProfit on equal opportunity
objects return equal outputs, whatever the ambient clock reads at each
call. -/
def claimPureStated : Prop :=
  ∀ cfg : EstimatorConfig, ∀ o : Opportunity, ∀ t1 t2 : ℕ,
    estimateProfit cfg o t1 = estimateProfit cfg o t2

/-- Claim C3 as stated: while a breaker is open no dispatched request
reaches the client until the clock strictly exceeds nextRetryTime, and a
successful call closes the breaker and resets its failure counter. -/
def claimBreakerStated : Prop :=
  (∀ cfg : CoordConfig, ∀ s : ClientState, ∀ t0 : ℕ, ∀ es : List TimedEvent,
    s.breakerOpen = true → validTrace cfg s t0 es = true →
    ∀ i : Fin es.length, isDelivery (es.get i).ev = true →
      s.nextRetryTime < (es.get i).time)
  ∧ (∀ cfg : CoordConfig, ∀ s : ClientState, ∀ t : ℕ,
      (stepClient cfg s ⟨t, CoordEvent.deliverSuccess⟩).breakerOpen = false
      ∧ (stepClient cfg s ⟨t, CoordEvent.deliverSuccess⟩).failureCount = 0)

/-- Claim C7 as stated: a failed probe increments the consecutive-error
counter, a provider is marked unhealthy only once three consecutive probes
have failed, one passing probe recovers it, and recovery resets the weight
to 1.0. -/
def claimProbeStated : Prop :=
  (∀ cfg : CoordConfig, ∀ s : ClientState, ∀ t : ℕ,
     (stepClient cfg s ⟨t, CoordEvent.probeFailure⟩).consecutiveErrors
       = s.consecutiveErrors + 1)
  ∧ (∀ cfg : CoordConfig, ∀ s : ClientState, ∀ t : ℕ,
      s.isHealthy = true → s.consecutiveErrors + 1 < 3 →
      (stepClient cfg s ⟨t, CoordEvent.probeFailure⟩).isHealthy = true)
  ∧ (∀ cfg : CoordConfig, ∀ s : ClientState, ∀ t : ℕ,
      (stepClient cfg s ⟨t, CoordEvent.probeSuccess⟩).isHealthy = true)
  ∧ (∀ cfg : CoordConfig, ∀ s : ClientState, ∀ t : ℕ,
      (stepClient cfg s ⟨t, CoordEvent.probeSuccess⟩).weight = 1)

/-- Sorting by the net profit figure in descending order, as claim C4
describes the ranking. -/
def sortByNetProfitDesc (opps : List EngineOpp) : List EngineOpp :=
  opps.mergeSort (fun a b => decide (b.expectedProfit ≤ a.expectedProfit))

/-- Claim C4 as stated: one scanner tick sorts the emitted opportunities by
net profit descending and pushes only the top three onto the queue. -/
def claimTopKStated : Prop :=
  ∀ jsLog : ℚ → ℚ, ∀ queue valid : List EngineOpp,
    scanTickQueue jsLog queue valid = queue ++ (sortByNetProfitDesc valid).take 3

/-- Claim C5 as stated: the execution queue has a configured capacity that
bounds its length, and when more ranked opportunities arrive than fit, only
the top ones by rank are retained. -/
def claimBoundedStated : Prop :=
  ∃ capacity : ℕ, ∀ jsLog : ℚ → ℚ, ∀ queue valid : List EngineOpp,
    (scanTickQueue jsLog queue valid).length ≤ capacity
    ∧ (capacity < valid.length →
        scanTickQueue jsLog queue valid = (rankOpportunities jsLog valid).take capacity)

/-- Four engine opportunities emitted in one tick. -/
def fourOpps : List EngineOpp :=
  [⟨1, 1, 1, 30⟩, ⟨1, 1, 1, 20⟩, ⟨1, 1, 1, 10⟩, ⟨1, 1, 1, 5⟩]

/-- A client whose breaker has just opened: five failures recorded,
next retry at clock 60000. -/
def sOpen : ClientState :=
  { isHealthy := true, consecutiveErrors := 0, breakerOpen := true, failureCount := 5
    nextRetryTime := 60000, weight := 1 }

/-- A concrete valid trace from sOpen: the breaker cooldown expires at
60000 and a request is dispatched at 70000. -/
def esOpen : List TimedEvent :=
  [⟨60000, CoordEvent.healthTick⟩, ⟨70000, CoordEvent.deliverSuccess⟩]

/-- A client that has already accumulated two consecutive request errors. -/
def sTwoErr : ClientState := { newClientState with consecutiveErrors := 2 }

end FBot

/-! Theorems. Helper lemmas come first; each claim is settled by exactly one
theorem carrying the claim id in its doc comment. -/

namespace FBot

/-- A validated opportunity has all six required fields present. -/
theorem validate_fields_isSome {o : Opportunity} (h : validateOpportunity o = true) :
    o.priceDelta.isSome = true ∧ o.volume.isSome = true ∧ o.gasPrice.isSome = true ∧
    o.flashLoanProvider.isSome = true ∧ o.dexA.isSome = true ∧ o.dexB.isSome = true := by
  simp only [validateOpportunity, Bool.and_eq_true] at h
  exact ⟨h.1.1.1.1.1.1.1.1.1.1.1, h.1.1.1.1.1.1.1.1.1.1.2, h.1.1.1.1.1.1.1.1.1.2,
    h.1.1.1.1.1.1.1.1.2, h.1.1.1.1.1.1.1.2, h.1.1.1.1.1.1.2⟩

/-- C1: for every opportunity that passes validation, the profitable verdict
of estimateProfit holds exactly when the slippage-adjusted net profit (the
netProfit field of the result) divided by the trade volume is at least the
configured minimum margin. The witness below exhibits the 25 bps boundary:
an input at exactly 25 bps net margin is admitted and one at 24.99 bps is
rejected. -/
theorem profitable_iff_net_margin (cfg : EstimatorConfig) (o : Opportunity) (now : ℕ)
    (v np : ℚ) (hval : validateOpportunity o = true) (hv : o.volume = some v)
    (hnp : (estimateProfit cfg o now).netProfit = some np) :
    (estimateProfit cfg o now).profitable = true ↔ cfg.minProfitThreshold ≤ np / v := by
  obtain ⟨h1, h2, h3, h4, h5, h6⟩ := validate_fields_isSome hval
  obtain ⟨pd, hpd⟩ := Option.isSome_iff_exists.mp h1
  obtain ⟨gp, hgp⟩ := Option.isSome_iff_exists.mp h3
  obtain ⟨pr, hpr⟩ := Option.isSome_iff_exists.mp h4
  obtain ⟨dA, hdA⟩ := Option.isSome_iff_exists.mp h5
  obtain ⟨dB, hdB⟩ := Option.isSome_iff_exists.mp h6
  simp only [estimateProfit, hval, if_true, hpd, hv, hgp, hpr, hdA, hdB] at hnp ⊢
  generalize hc : calculateCosts cfg v gp ((flashLoanFees pr).getD 0) ((dexFees dA).getD 0)
      ((dexFees dB).getD 0) o.ethPriceUsd = C at hnp ⊢
  cases C with
  | none =>
    simp [calcErrorResult, invalidResult] at hnp
  | some c =>
    obtain ⟨breakdown, total⟩ := c
    simp only [Option.some.injEq] at hnp
    simp only [decide_eq_true_eq]
    rw [hnp]

/-- Witness for C1: the boundary opportunity at exactly 25 bps is admitted,
and the same opportunity at 24.99 bps is rejected. -/
theorem profitable_iff_net_margin_witness :
    ((estimateProfit defaultConfig opp25 0).profitable = true
        ↔ defaultConfig.minProfitThreshold ≤ (25 : ℚ) / 10000)
    ∧ (estimateProfit defaultConfig opp25 0).profitable = true
    ∧ (estimateProfit defaultConfig opp2499 0).profitable = false := by
  refine ⟨profitable_iff_net_margin defaultConfig opp25 0 10000 25 ?_ rfl ?_, ?_, ?_⟩
  · simp [validateOpportunity, opp25, truthyQ, flashLoanFees, dexFees]
  · simp [estimateProfit, validateOpportunity, opp25, truthyQ, flashLoanFees, dexFees,
      defaultConfig, calculateCosts, parseUnitsGwei, calculateBaseProfit, jsOrQ,
      calculateSlippageImpact, totalGasUnits]
    norm_num
  · simp [estimateProfit, validateOpportunity, opp25, truthyQ, flashLoanFees, dexFees,
      defaultConfig, calculateCosts, parseUnitsGwei, calculateBaseProfit, jsOrQ,
      calculateSlippageImpact, totalGasUnits]
    norm_num
  · simp [estimateProfit, validateOpportunity, opp25, opp2499, truthyQ, flashLoanFees, dexFees,
      defaultConfig, calculateCosts, parseUnitsGwei, calculateBaseProfit, jsOrQ,
      calculateSlippageImpact, totalGasUnits]
    norm_num

/-- C2 counterexample: estimateProfit embeds Date.now() in
metadata.timestamp, so two calls on the same opportunity at different clock
readings return unequal outputs; the claim as stated is false. -/
theorem estimate_output_varies_with_clock : ¬ claimPureStated := by
  intro h
  have h0 := congrArg EstimateResult.metaTimestamp (h defaultConfig opp25 0 1)
  have ha : (estimateProfit defaultConfig opp25 0).metaTimestamp = some 0 := by
    simp [estimateProfit, validateOpportunity, opp25, truthyQ, flashLoanFees, dexFees,
      defaultConfig, calculateCosts, parseUnitsGwei, jsOrQ, jsOrStr]
  have hb : (estimateProfit defaultConfig opp25 1).metaTimestamp = some 1 := by
    simp [estimateProfit, validateOpportunity, opp25, truthyQ, flashLoanFees, dexFees,
      defaultConfig, calculateCosts, parseUnitsGwei, jsOrQ, jsOrStr]
  rw [ha, hb] at h0
  exact Option.noConfusion h0 (fun h01 => Nat.zero_ne_one h01)

/-- C2 (amended): estimateProfit is deterministic in every output field
except the metadata timestamp: two calls on equal opportunity objects agree
on the profitable verdict, the reason, every numeric field, the confidence,
the recommendation, and the remaining metadata. -/
theorem estimate_deterministic_up_to_timestamp (cfg : EstimatorConfig) (o : Opportunity)
    (t1 t2 : ℕ) :
    (estimateProfit cfg o t1).profitable = (estimateProfit cfg o t2).profitable
    ∧ (estimateProfit cfg o t1).reason = (estimateProfit cfg o t2).reason
    ∧ (estimateProfit cfg o t1).errMsg = (estimateProfit cfg o t2).errMsg
    ∧ (estimateProfit cfg o t1).baseProfit = (estimateProfit cfg o t2).baseProfit
    ∧ (estimateProfit cfg o t1).costs = (estimateProfit cfg o t2).costs
    ∧ (estimateProfit cfg o t1).totalCosts = (estimateProfit cfg o t2).totalCosts
    ∧ (estimateProfit cfg o t1).netProfit = (estimateProfit cfg o t2).netProfit
    ∧ (estimateProfit cfg o t1).profitPercent = (estimateProfit cfg o t2).profitPercent
    ∧ (estimateProfit cfg o t1).slippageImpact = (estimateProfit cfg o t2).slippageImpact
    ∧ (estimateProfit cfg o t1).threshold = (estimateProfit cfg o t2).threshold
    ∧ (estimateProfit cfg o t1).confidence = (estimateProfit cfg o t2).confidence
    ∧ (estimateProfit cfg o t1).recommendation = (estimateProfit cfg o t2).recommendation
    ∧ (estimateProfit cfg o t1).metaOpportunity = (estimateProfit cfg o t2).metaOpportunity
    ∧ (estimateProfit cfg o t1).metaChain = (estimateProfit cfg o t2).metaChain := by
  by_cases hval : validateOpportunity o = true
  · obtain ⟨h1, h2, h3, h4, h5, h6⟩ := validate_fields_isSome hval
    obtain ⟨pd, hpd⟩ := Option.isSome_iff_exists.mp h1
    obtain ⟨v, hv⟩ := Option.isSome_iff_exists.mp h2
    obtain ⟨gp, hgp⟩ := Option.isSome_iff_exists.mp h3
    obtain ⟨pr, hpr⟩ := Option.isSome_iff_exists.mp h4
    obtain ⟨dA, hdA⟩ := Option.isSome_iff_exists.mp h5
    obtain ⟨dB, hdB⟩ := Option.isSome_iff_exists.mp h6
    simp only [estimateProfit, hval, if_true, hpd, hv, hgp, hpr, hdA, hdB]
    generalize calculateCosts cfg v gp ((flashLoanFees pr).getD 0) ((dexFees dA).getD 0)
        ((dexFees dB).getD 0) o.ethPriceUsd = C
    cases C with
    | none => simp
    | some c => obtain ⟨breakdown, total⟩ := c; simp
  · have hval2 : validateOpportunity o = false := by
      simpa using hval
    simp [estimateProfit, hval2]

/-- C8: for a validated opportunity with nonzero liquidity depths on both
sides, the modeled slippage cost equals
min(volume/depthA times one half plus volume/depthB times one half,
maxSlippage) times volume, this amount is subtracted from the pre-slippage
net profit to give the netProfit field, and the profitability verdict is
taken on the slippage-adjusted figure. -/
theorem slippage_formula_and_subtraction (cfg : EstimatorConfig) (o : Opportunity) (now : ℕ)
    (pd v gp : ℚ) (pr dA dB : String) (lA lB : ℚ) (c : CostBreakdown × ℚ)
    (hval : validateOpportunity o = true)
    (hpd : o.priceDelta = some pd) (hv : o.volume = some v) (hgp : o.gasPrice = some gp)
    (hpr : o.flashLoanProvider = some pr) (hdA : o.dexA = some dA) (hdB : o.dexB = some dB)
    (hlA : o.liquidityA = some lA) (hlB : o.liquidityB = some lB)
    (hlA0 : lA ≠ 0) (hlB0 : lB ≠ 0)
    (hc : calculateCosts cfg v gp ((flashLoanFees pr).getD 0) ((dexFees dA).getD 0)
        ((dexFees dB).getD 0) o.ethPriceUsd = some c) :
    (estimateProfit cfg o now).slippageImpact
        = some ((min (v / lA * (1 / 2) + v / lB * (1 / 2)) cfg.maxSlippage) * v)
    ∧ (estimateProfit cfg o now).netProfit
        = some (pd * v - c.2
            - (min (v / lA * (1 / 2) + v / lB * (1 / 2)) cfg.maxSlippage) * v)
    ∧ ((estimateProfit cfg o now).profitable = true
        ↔ cfg.minProfitThreshold
            ≤ (pd * v - c.2
                - (min (v / lA * (1 / 2) + v / lB * (1 / 2)) cfg.maxSlippage) * v) / v) := by
  have hslip : calculateSlippageImpact cfg v o.liquidityA o.liquidityB
      = (min (v / lA * (1 / 2) + v / lB * (1 / 2)) cfg.maxSlippage) * v := by
    simp [calculateSlippageImpact, hlA, hlB, jsOrQ, truthyQ, hlA0, hlB0]
  simp only [estimateProfit, hval, if_true, hpd, hv, hgp, hpr, hdA, hdB, hc,
    calculateBaseProfit, hslip]
  obtain ⟨breakdown, total⟩ := c
  simp [decide_eq_true_eq]

/-- Witness for C8 at the concrete boundary opportunity: both depths are
5000000, the raw two-sided slippage 0.002 is capped at maxSlippage 0.001,
and the capped amount scaled by the volume is subtracted before the check. -/
theorem slippage_formula_witness :
    (estimateProfit defaultConfig opp25 0).slippageImpact
        = some ((min ((10000 : ℚ) / 5000000 * (1 / 2) + 10000 / 5000000 * (1 / 2)) (1 / 1000))
            * 10000)
    ∧ (estimateProfit defaultConfig opp25 0).netProfit
        = some ((1053 : ℚ) / 10000 * 10000 - 1018
            - (min ((10000 : ℚ) / 5000000 * (1 / 2) + 10000 / 5000000 * (1 / 2)) (1 / 1000))
              * 10000)
    ∧ ((estimateProfit defaultConfig opp25 0).profitable = true
        ↔ (25 : ℚ) / 10000
            ≤ ((1053 : ℚ) / 10000 * 10000 - 1018
                - (min ((10000 : ℚ) / 5000000 * (1 / 2) + 10000 / 5000000 * (1 / 2)) (1 / 1000))
                  * 10000) / 10000) :=
  slippage_formula_and_subtraction defaultConfig opp25 0 (1053 / 10000) 10000 1 "venus" "curve"
    "curve" 5000000 5000000 (⟨1, 9, 4, 4, 1000⟩, 1018)
    (by simp [validateOpportunity, opp25, truthyQ, flashLoanFees, dexFees])
    rfl rfl rfl rfl rfl rfl rfl rfl (by norm_num) (by norm_num)
    (by
      simp [calculateCosts, parseUnitsGwei, flashLoanFees, dexFees, jsOrQ, truthyQ, opp25,
        defaultConfig, totalGasUnits]
      norm_num)

/-- C9: for present nonzero liquidity depths, the confidence equals a
baseline of 1.0 multiplied by 0.8 when the gas price exceeds the configured
ceiling, by 0.6 when the smaller depth is below ten times the trade size,
and by 0.7 when the margin (price delta over volume) is below 0.5 percent,
floored at 0.1. -/
theorem confidence_formula (cfg : EstimatorConfig) (pd v gp lA lB : ℚ)
    (hlA0 : lA ≠ 0) (hlB0 : lB ≠ 0) :
    calculateConfidence cfg pd v gp (some lA) (some lB)
      = max ((1 : ℚ) * (if cfg.maxGasPriceGwei < gp then 8 / 10 else 1)
          * (if min lA lB < v * 10 then 6 / 10 else 1)
          * (if pd / v < 5 / 1000 then 7 / 10 else 1)) (1 / 10) := by
  simp only [calculateConfidence, jsOrQ, truthyQ]
  simp only [Option.getD_some, bne_iff_ne, ne_eq, hlA0, hlB0, not_false_eq_true, if_true,
    ite_true]
  split_ifs <;> ring_nf

/-- Witness for C9 at the boundary opportunity values. -/
theorem confidence_formula_witness :
    calculateConfidence defaultConfig (1053 / 10000) 10000 1 (some 5000000) (some 5000000)
      = max ((1 : ℚ) * (if defaultConfig.maxGasPriceGwei < 1 then 8 / 10 else 1)
          * (if min (5000000 : ℚ) 5000000 < 10000 * 10 then 6 / 10 else 1)
          * (if (1053 : ℚ) / 10000 / 10000 < 5 / 1000 then 7 / 10 else 1)) (1 / 10) :=
  confidence_formula defaultConfig (1053 / 10000) 10000 1 5000000 5000000 (by norm_num)
    (by norm_num)

/-- C10: estimateProfit is total and absorbs bad input: whenever validation
fails (in particular when any required field is absent, a numeric field is
not positive, or a provider or venue lookup is not truthy) the result has
profitable false with reason Invalid opportunity data, and when the gas
price makes ethers.parseUnits throw inside the try block, the catch returns
profitable false with reason Calculation error. -/
theorem estimate_error_handling :
    (∀ cfg : EstimatorConfig, ∀ o : Opportunity, ∀ now : ℕ,
      validateOpportunity o = false →
      (estimateProfit cfg o now).profitable = false
      ∧ (estimateProfit cfg o now).reason = some "Invalid opportunity data")
    ∧ (∀ o : Opportunity, o.priceDelta = none → validateOpportunity o = false)
    ∧ (∀ o : Opportunity, o.volume = none → validateOpportunity o = false)
    ∧ (∀ o : Opportunity, o.gasPrice = none → validateOpportunity o = false)
    ∧ (∀ o : Opportunity, o.flashLoanProvider = none → validateOpportunity o = false)
    ∧ (∀ o : Opportunity, o.dexA = none → validateOpportunity o = false)
    ∧ (∀ o : Opportunity, o.dexB = none → validateOpportunity o = false)
    ∧ (∀ o : Opportunity, ∀ pd : ℚ, o.priceDelta = some pd → pd ≤ 0 →
        validateOpportunity o = false)
    ∧ (∀ o : Opportunity, ∀ v : ℚ, o.volume = some v → v ≤ 0 →
        validateOpportunity o = false)
    ∧ (∀ o : Opportunity, ∀ g : ℚ, o.gasPrice = some g → g ≤ 0 →
        validateOpportunity o = false)
    ∧ (∀ o : Opportunity, ∀ p : String, o.flashLoanProvider = some p → flashLoanFees p = none →
        validateOpportunity o = false)
    ∧ (∀ o : Opportunity, ∀ d : String, o.dexA = some d → dexFees d = none →
        validateOpportunity o = false)
    ∧ (∀ o : Opportunity, ∀ d : String, o.dexB = some d → dexFees d = none →
        validateOpportunity o = false)
    ∧ (∀ cfg : EstimatorConfig, ∀ o : Opportunity, ∀ now : ℕ, ∀ g : ℚ,
        validateOpportunity o = true → o.gasPrice = some g → parseUnitsGwei g = none →
        (estimateProfit cfg o now).profitable = false
        ∧ (estimateProfit cfg o now).reason = some "Calculation error") := by
  refine ⟨?_, ?_, ?_, ?_, ?_, ?_, ?_, ?_, ?_, ?_, ?_, ?_, ?_, ?_⟩
  · intro cfg o now hval
    simp [estimateProfit, hval, invalidResult]
  · intro o h; simp [validateOpportunity, h]
  · intro o h; simp [validateOpportunity, h]
  · intro o h; simp [validateOpportunity, h]
  · intro o h; simp [validateOpportunity, h]
  · intro o h; simp [validateOpportunity, h]
  · intro o h; simp [validateOpportunity, h]
  · intro o pd h hle; simp [validateOpportunity, h, not_lt.mpr hle]
  · intro o v h hle; simp [validateOpportunity, h, not_lt.mpr hle]
  · intro o g h hle; simp [validateOpportunity, h, not_lt.mpr hle]
  · intro o p h hnone; simp [validateOpportunity, h, truthyQ, hnone]
  · intro o d h hnone; simp [validateOpportunity, h, truthyQ, hnone]
  · intro o d h hnone; simp [validateOpportunity, h, truthyQ, hnone]
  · intro cfg o now g hval hg hparse
    obtain ⟨h1, h2, h3, h4, h5, h6⟩ := validate_fields_isSome hval
    obtain ⟨pd, hpd⟩ := Option.isSome_iff_exists.mp h1
    obtain ⟨v, hv⟩ := Option.isSome_iff_exists.mp h2
    obtain ⟨pr, hpr⟩ := Option.isSome_iff_exists.mp h4
    obtain ⟨dA, hdA⟩ := Option.isSome_iff_exists.mp h5
    obtain ⟨dB, hdB⟩ := Option.isSome_iff_exists.mp h6
    have hc : calculateCosts cfg v g ((flashLoanFees pr).getD 0) ((dexFees dA).getD 0)
        ((dexFees dB).getD 0) o.ethPriceUsd = none := by
      simp [calculateCosts, hparse]
    simp [estimateProfit, hval, hpd, hv, hg, hpr, hdA, hdB, hc, calcErrorResult, invalidResult]

/-- Witness for C10: the all-absent opportunity fails validation and is
rejected with the invalid-data reason. -/
theorem estimate_error_handling_witness :
    validateOpportunity oppEmpty = false
    ∧ (estimateProfit defaultConfig oppEmpty 0).profitable = false
    ∧ (estimateProfit defaultConfig oppEmpty 0).reason = some "Invalid opportunity data" := by
  have hval : validateOpportunity oppEmpty = false := by simp [validateOpportunity, oppEmpty]
  have h := estimate_error_handling.1 defaultConfig oppEmpty 0 hval
  exact ⟨hval, h.1, h.2⟩

end FBot

namespace FBot

/-- In a valid trace every event timestamp is at least the starting clock. -/
theorem validTrace_time_ge (cfg : CoordConfig) :
    ∀ (es : List TimedEvent) (s : ClientState) (t0 : ℕ),
      validTrace cfg s t0 es = true → ∀ i : Fin es.length, t0 ≤ (es.get i).time := by
  intro es
  induction es with
  | nil =>
    intro s t0 _ i
    exact absurd i.isLt (by simp)
  | cons e es ih =>
    intro s t0 hv i
    simp only [validTrace, Bool.and_eq_true, decide_eq_true_eq] at hv
    obtain ⟨⟨ht, _⟩, htail⟩ := hv
    rcases i with ⟨i, hi⟩
    cases i with
    | zero => exact ht
    | succ j =>
      have := ih (stepClient cfg s e) e.time htail ⟨j, Nat.lt_of_succ_lt_succ hi⟩
      exact le_trans ht this

/-- While the breaker is open, a non-delivery event other than a due health
tick leaves the breaker open with the same next-retry time. -/
theorem breaker_preserved (cfg : CoordConfig) (s : ClientState) (e : TimedEvent)
    (hopen : s.breakerOpen = true) (hnd : isDelivery e.ev = false)
    (hnr : ¬ (e.ev = CoordEvent.healthTick ∧ s.nextRetryTime ≤ e.time)) :
    (stepClient cfg s e).breakerOpen = true
    ∧ (stepClient cfg s e).nextRetryTime = s.nextRetryTime := by
  cases hev : e.ev with
  | deliverSuccess => rw [hev] at hnd; exact absurd hnd (by simp [isDelivery])
  | deliverFailure => rw [hev] at hnd; exact absurd hnd (by simp [isDelivery])
  | healthTick =>
    have hr : ¬ s.nextRetryTime ≤ e.time := fun h => hnr ⟨hev, h⟩
    simp [stepClient, hev, hopen, hr]
  | probeSuccess => simp [stepClient, hev, hopen]
  | probeFailure => simp [stepClient, hev, hopen]

/-- Once the breaker is open with a given next-retry time, every dispatched
request in any valid continuation happens at a timestamp at least that
next-retry time. -/
theorem breaker_blocking_aux (cfg : CoordConfig) :
    ∀ (es : List TimedEvent) (s : ClientState) (t0 : ℕ),
      s.breakerOpen = true → validTrace cfg s t0 es = true →
      ∀ i : Fin es.length, isDelivery (es.get i).ev = true →
        s.nextRetryTime ≤ (es.get i).time := by
  intro es
  induction es with
  | nil =>
    intro s t0 _ _ i
    exact absurd i.isLt (by simp)
  | cons e es ih =>
    intro s t0 hopen hv i hdel
    simp only [validTrace, Bool.and_eq_true, decide_eq_true_eq] at hv
    obtain ⟨⟨ht, hguard⟩, htail⟩ := hv
    have hnd : isDelivery e.ev = false := by
      rcases Bool.or_eq_true _ _ |>.mp hguard with hnd1 | hsel
      · simpa using hnd1
      · exact absurd hsel (by simp [selectable, hopen])
    rcases i with ⟨i, hi⟩
    cases i with
    | zero =>
      simp only [List.get] at hdel
      rw [hdel] at hnd
      exact absurd hnd (by simp)
    | succ j =>
      have hdel2 : isDelivery ((es.get ⟨j, Nat.lt_of_succ_lt_succ hi⟩).ev) = true := hdel
      by_cases hclose : e.ev = CoordEvent.healthTick ∧ s.nextRetryTime ≤ e.time
      · have htime := validTrace_time_ge cfg es (stepClient cfg s e) e.time htail
          ⟨j, Nat.lt_of_succ_lt_succ hi⟩
        exact le_trans hclose.2 htime
      · obtain ⟨h1, h2⟩ := breaker_preserved cfg s e hopen hnd hclose
        have := ih (stepClient cfg s e) e.time h1 htail ⟨j, Nat.lt_of_succ_lt_succ hi⟩ hdel2
        rwa [h2] at this

/-- C3 counterexample: a successful call on a client whose breaker is closed
does not reset the failure counter (updateSuccessMetrics clears it only
inside the breaker-open branch), so the claim as stated is false: a client
with four accumulated failures keeps them through a success. -/
theorem breaker_counter_not_reset_on_success : ¬ claimBreakerStated := by
  intro h
  have h2 := (h.2 defaultCoordConfig
    { isHealthy := true, consecutiveErrors := 0, breakerOpen := false, failureCount := 4
      nextRetryTime := 0, weight := 1 } 0).2
  simp [stepClient] at h2

/-- C3 (amended): while a breaker is open, no request reaches the provider
through primary selection or failover until the clock has reached (is at
least) the next-retry time, since checkCircuitBreakers closes the breaker
when now is greater than or equal to nextRetryTime; a successful call
closes the breaker and resets the failure counter exactly when the breaker
was open, and leaves the counter unchanged when it was closed. -/
theorem breaker_blocks_requests :
    (∀ cfg : CoordConfig, ∀ s : ClientState, ∀ t0 : ℕ, ∀ es : List TimedEvent,
      s.breakerOpen = true → validTrace cfg s t0 es = true →
      ∀ i : Fin es.length, isDelivery (es.get i).ev = true →
        s.nextRetryTime ≤ (es.get i).time)
    ∧ (∀ cfg : CoordConfig, ∀ s : ClientState, ∀ t : ℕ, s.breakerOpen = true →
        (stepClient cfg s ⟨t, CoordEvent.deliverSuccess⟩).breakerOpen = false
        ∧ (stepClient cfg s ⟨t, CoordEvent.deliverSuccess⟩).failureCount = 0)
    ∧ (∀ cfg : CoordConfig, ∀ s : ClientState, ∀ t : ℕ, s.breakerOpen = false →
        (stepClient cfg s ⟨t, CoordEvent.deliverSuccess⟩).failureCount = s.failureCount) := by
  refine ⟨fun cfg s t0 es h hv => breaker_blocking_aux cfg es s t0 h hv, ?_, ?_⟩
  · intro cfg s t h
    simp [stepClient, h]
  · intro cfg s t h
    simp [stepClient, h]

/-- Witness for C3: a concrete open breaker with retry time 60000, a health
tick at 60000 and a dispatched request at 70000 form a valid trace, and the
request indeed happens no earlier than the retry time. -/
theorem breaker_blocks_requests_witness :
    (sOpen.breakerOpen = true ∧ validTrace defaultCoordConfig sOpen 0 esOpen = true
      ∧ isDelivery (esOpen.get ⟨1, by decide⟩).ev = true)
    ∧ sOpen.nextRetryTime ≤ (esOpen.get ⟨1, by decide⟩).time := by
  refine ⟨⟨rfl, by decide, by decide⟩, ?_⟩
  exact breaker_blocks_requests.1 defaultCoordConfig sOpen 0 esOpen rfl (by decide)
    ⟨1, by decide⟩ (by decide)

/-- One step keeps the load-balancing weight inside the interval. -/
theorem step_weight_bounds (cfg : CoordConfig) (s : ClientState) (e : TimedEvent)
    (h1 : 1 / 10 ≤ s.weight) (h2 : s.weight ≤ 2) :
    1 / 10 ≤ (stepClient cfg s e).weight ∧ (stepClient cfg s e).weight ≤ 2 := by
  cases hev : e.ev with
  | deliverSuccess =>
    rcases hb : s.breakerOpen <;>
      simp only [stepClient, hev, hb, if_true, if_false, Bool.false_eq_true] <;>
      constructor <;>
      first
        | exact le_min (by nlinarith) (by norm_num)
        | exact min_le_right _ _
  | deliverFailure =>
    simp only [stepClient, hev]
    split_ifs <;> constructor <;>
      first
        | exact le_max_right _ _
        | exact max_le (by nlinarith) (by norm_num)
  | healthTick =>
    simp only [stepClient, hev]
    split_ifs <;> exact ⟨h1, h2⟩
  | probeSuccess =>
    simp only [stepClient, hev]
    exact ⟨h1, h2⟩
  | probeFailure =>
    simp only [stepClient, hev]
    exact ⟨h1, h2⟩

/-- C6: every load-balancing weight stays in the interval from 0.1 to 2.0
under every sequence of coordinator operations; a recorded success
multiplies the weight by 1.1 capped at 2.0, a recorded failure multiplies
it by 0.8 floored at 0.1, and the initial weight is 1.0. -/
theorem weight_stays_bounded :
    (∀ cfg : CoordConfig, ∀ s : ClientState, ∀ es : List TimedEvent,
      1 / 10 ≤ s.weight → s.weight ≤ 2 →
      1 / 10 ≤ (runClient cfg s es).weight ∧ (runClient cfg s es).weight ≤ 2)
    ∧ (∀ cfg : CoordConfig, ∀ s : ClientState, ∀ t : ℕ,
        (stepClient cfg s ⟨t, CoordEvent.deliverSuccess⟩).weight
          = min (s.weight * (11 / 10)) 2)
    ∧ (∀ cfg : CoordConfig, ∀ s : ClientState, ∀ t : ℕ,
        (stepClient cfg s ⟨t, CoordEvent.deliverFailure⟩).weight
          = max (s.weight * (8 / 10)) (1 / 10))
    ∧ newClientState.weight = 1 := by
  refine ⟨?_, ?_, ?_, rfl⟩
  · intro cfg s es
    induction es generalizing s with
    | nil => intro h1 h2; exact ⟨h1, h2⟩
    | cons e es ih =>
      intro h1 h2
      have hstep := step_weight_bounds cfg s e h1 h2
      exact ih (stepClient cfg s e) hstep.1 hstep.2
  · intro cfg s t
    rcases hb : s.breakerOpen <;> simp [stepClient, hb]
  · intro cfg s t
    simp only [stepClient]
    split_ifs <;> rfl

/-- Witness for C6: running the concrete trace from the freshly initialized
state keeps the weight inside the interval. -/
theorem weight_stays_bounded_witness :
    1 / 10 ≤ (runClient defaultCoordConfig newClientState esOpen).weight
    ∧ (runClient defaultCoordConfig newClientState esOpen).weight ≤ 2 :=
  weight_stays_bounded.1 defaultCoordConfig newClientState esOpen (by norm_num [newClientState])
    (by norm_num [newClientState])

/-- C7 counterexample: checkClientHealth marks a client unhealthy on its
very first failed probe and does not touch the consecutive-error counter,
so the claim that three consecutive failed probes are needed is false. -/
theorem single_probe_marks_unhealthy : ¬ claimProbeStated := by
  intro h
  have h2 := h.2.1 defaultCoordConfig newClientState 0 rfl (by decide)
  simp [stepClient, newClientState] at h2

/-- C7 (amended): a single failed health probe marks the provider unhealthy
and leaves both the consecutive-error counter and the weight unchanged; a
provider recovers by passing one probe, which also leaves the weight
unchanged (no reset to 1.0); separately, a third consecutive request
failure marks the provider unhealthy through updateFailureMetrics. -/
theorem probe_health_behaviour :
    (∀ cfg : CoordConfig, ∀ s : ClientState, ∀ t : ℕ,
      (stepClient cfg s ⟨t, CoordEvent.probeFailure⟩).isHealthy = false
      ∧ (stepClient cfg s ⟨t, CoordEvent.probeFailure⟩).consecutiveErrors = s.consecutiveErrors
      ∧ (stepClient cfg s ⟨t, CoordEvent.probeFailure⟩).weight = s.weight)
    ∧ (∀ cfg : CoordConfig, ∀ s : ClientState, ∀ t : ℕ,
      (stepClient cfg s ⟨t, CoordEvent.probeSuccess⟩).isHealthy = true
      ∧ (stepClient cfg s ⟨t, CoordEvent.probeSuccess⟩).weight = s.weight)
    ∧ (∀ cfg : CoordConfig, ∀ s : ClientState, ∀ t : ℕ, 3 ≤ s.consecutiveErrors + 1 →
      (stepClient cfg s ⟨t, CoordEvent.deliverFailure⟩).isHealthy = false) := by
  refine ⟨?_, ?_, ?_⟩
  · intro cfg s t
    exact ⟨rfl, rfl, rfl⟩
  · intro cfg s t
    exact ⟨rfl, rfl⟩
  · intro cfg s t h3
    simp only [stepClient]
    split_ifs <;> rfl

/-- Witness for C7: a client with two prior consecutive errors is marked
unhealthy by its third request failure. -/
theorem probe_health_behaviour_witness :
    (3 ≤ sTwoErr.consecutiveErrors + 1)
    ∧ (stepClient defaultCoordConfig sTwoErr ⟨0, CoordEvent.deliverFailure⟩).isHealthy
        = false :=
  ⟨by decide, probe_health_behaviour.2.2 defaultCoordConfig sTwoErr 0 (by decide)⟩

/-- C4 counterexample: one tick with four emitted opportunities pushes all
four onto the queue, so the claim that only the top three by net profit are
pushed is false. -/
theorem scan_tick_pushes_all : ¬ claimTopKStated := by
  intro h
  have h4 := h (fun _ => 0) [] fourOpps
  have hlen : (scanTickQueue (fun _ => 0) [] fourOpps).length = 4 := by
    simp [scanTickQueue, rankOpportunities, fourOpps]
  rw [h4] at hlen
  simp [sortByNetProfitDesc, fourOpps, List.length_take] at hlen

/-- C4 (amended): each scanner tick pushes the whole ranked list onto the
execution queue; the ranked list is a permutation of the valid
opportunities sorted in descending order of the composite score
profitability times confidence times log of liquidity over 1000, not by net
profit, and no top-K truncation is applied. -/
theorem rank_and_push_semantics (jsLog : ℚ → ℚ) (queue valid : List EngineOpp) :
    scanTickQueue jsLog queue valid = queue ++ rankOpportunities jsLog valid
    ∧ (rankOpportunities jsLog valid).Perm valid
    ∧ List.Pairwise (fun a b => oppScore jsLog b ≤ oppScore jsLog a)
        (rankOpportunities jsLog valid) := by
  refine ⟨rfl, List.mergeSort_perm valid _, ?_⟩
  have hs := List.sorted_mergeSort
    (fun a b c (hab : decide (oppScore jsLog b ≤ oppScore jsLog a) = true)
        (hbc : decide (oppScore jsLog c ≤ oppScore jsLog b) = true) =>
      decide_eq_true (le_trans (of_decide_eq_true hbc) (of_decide_eq_true hab)))
    (fun a b => by
      rcases le_total (oppScore jsLog b) (oppScore jsLog a) with h | h <;>
        simp [h])
    valid
  exact hs.imp (fun h => of_decide_eq_true h)

/-- C5 counterexample: this.executionQueue is a plain array that only ever
grows by push, so no configured capacity bounds its length; the claim is
false. -/
theorem queue_is_unbounded : ¬ claimBoundedStated := by
  rintro ⟨capacity, h⟩
  have hcap := (h (fun _ => 0) (List.replicate (capacity + 1) ⟨1, 1, 1, 1⟩) []).1
  simp [scanTickQueue, rankOpportunities] at hcap

/-- C5 (amended): the execution queue is unbounded: a tick appends every
ranked opportunity to the existing queue, the queue length grows by exactly
the number of emitted opportunities, and no existing element is dropped. -/
theorem queue_append_no_drop (jsLog : ℚ → ℚ) (queue valid : List EngineOpp) :
    scanTickQueue jsLog queue valid = queue ++ rankOpportunities jsLog valid
    ∧ (scanTickQueue jsLog queue valid).length = queue.length + valid.length
    ∧ (scanTickQueue jsLog queue valid).take queue.length = queue := by
  refine ⟨rfl, ?_, ?_⟩
  · simp [scanTickQueue, rankOpportunities]
  · simp [scanTickQueue, List.take_left]

end FBot
